import Mathlib

/-!
# Verification of the Pinion generation pipeline (`pinion/generate.py`)

Shallow embedding of the geometry/metadata pipeline: unit conversions,
pad-geometry serialization, component/pin assembly, image generation and
alignment (modelled as an event trace over abstract collaborators), and the
group-taxonomy resolver.  Numbers are rationals (the Python code computes with
floats; all claims here are about exact arithmetic identities that hold at any
precision).  Python dictionaries are insertion-ordered association lists.
-/

namespace Pinion

/-! ## Unit conversion (`dmil2ki`, `ki2mm`, `mm2ki`) -/

/-- `dmil2ki(val)`: convert KiCAD decimils to native units (`val * 2540`). -/
def dmil2ki (val : ℚ) : ℚ := val * 2540

/-- `ki2mm(val)`: convert native units to millimetres (`val / 1000000.0`). -/
def ki2mm (val : ℚ) : ℚ := val / 1000000

/-- `mm2ki(val)`: convert millimetres to native units (`val * 1000000`). -/
def mm2ki (val : ℚ) : ℚ := val * 1000000

/-! ## Board-model collaborator (read accessors used by the code) -/

/-- A native-unit axis-aligned rectangle as exposed by `EDA_RECT`
(`GetX`, `GetY`, `GetWidth`, `GetHeight`); width/height may be negative. -/
structure EdaRect where
  x : ℚ
  y : ℚ
  w : ℚ
  h : ℚ

/-- A pad of the board model: `GetName`, `GetPosition`, `GetBoundingBox`,
copper-layer membership (`F_Cu`/`B_Cu` in `GetLayerSet().CuStack()`), and the
clearance-expanded outline polygon the collaborator produces for a given
native-unit offset (`TransformShapeWithClearanceToPolygon` followed by
`Outline(0)` point extraction). -/
structure Pad where
  name : String
  posx : ℚ
  posy : ℚ
  bbox : EdaRect
  onFront : Bool
  onBack : Bool
  outlineFn : ℚ → List (ℚ × ℚ)

/-- A footprint: `Pads()` in stable native order. -/
structure Footprint where
  pads : List Pad

/-- The board: `GetFileName` and `FindModule` (reference lookup, `None` when
absent). -/
structure Board where
  fileName : String
  modules : List (String × Footprint)

def Board.FindModule (b : Board) (ref : String) : Option Footprint :=
  b.modules.lookup ref

/-! ## Geometry extraction (`padOutline`, `serializeEdaRect`) -/

/-- A bounding box as serialized: `tl`/`br` corners in millimetres. -/
structure BoundingBox where
  tl : ℚ × ℚ
  br : ℚ × ℚ
deriving DecidableEq

/-- `padOutline(pad, offsetBy)`: the collaborator-provided outline points,
each coordinate converted to millimetres. -/
def padOutline (pad : Pad) (offsetBy : ℚ) : List (ℚ × ℚ) :=
  (pad.outlineFn offsetBy).map (fun p => (ki2mm p.1, ki2mm p.2))

/-- `serializeEdaRect(rect)`: `tl = (x, y)`, `br = (x + w, y + h)`, all via
`ki2mm`. -/
def serializeEdaRect (rect : EdaRect) : BoundingBox :=
  { tl := (ki2mm rect.x, ki2mm rect.y)
    br := (ki2mm (rect.x + rect.w), ki2mm (rect.y + rect.h)) }

/-! ## Annotation document (input) -/

/-- A `PinSpec` of the annotation document: `spec["name"]` is required, the
rest read with `.get` defaults (`description` `""`, `alias` `False`,
`groups` `[]`, `offset` `0`). -/
structure PinSpec where
  name : String
  description : String := ""
  isAlias : Bool := false
  groups : List String := []
  offset : ℚ := 0

/-- A `ComponentSpec`: `s["description"]` and `s["pins"]` are required,
`highlight` and `groups` read with `.get` defaults.  `pins` is an
insertion-ordered mapping pad-name ↦ `PinSpec`. -/
structure ComponentSpec where
  description : String
  highlight : Bool := false
  groups : List String := []
  pins : List (String × PinSpec)

/-! ## Component/pin assembler (`pinDefinition`, `pinsDefinition`,
`componentsDefinition`) -/

/-- An assembled output pin. -/
structure Pin where
  shape : List (ℚ × ℚ)
  bbox : BoundingBox
  pos : ℚ × ℚ
  front : Bool
  back : Bool
  name : String
  description : String
  isAlias : Bool
  groups : List String

/-- `pinDefinition(spec, pad, footprint)`: merge the `PinSpec` with geometry
extracted from the pad. -/
def pinDefinition (spec : PinSpec) (pad : Pad) : Pin :=
  { shape := padOutline pad (mm2ki spec.offset)
    bbox := serializeEdaRect pad.bbox
    pos := (ki2mm pad.posx, ki2mm pad.posy)
    front := pad.onFront
    back := pad.onBack
    name := spec.name
    description := spec.description
    isAlias := spec.isAlias
    groups := spec.groups }

/-- `pinsDefinition(spec, footprint)`: one pin per pad of the footprint whose
name is a key of `spec`, in the footprint's pad order
(`[pinDefinition(spec[pad.GetName()], pad, footprint) for pad in
footprint.Pads() if pad.GetName() in spec.keys()]`). -/
def pinsDefinition (spec : List (String × PinSpec)) (footprint : Footprint) :
    List Pin :=
  footprint.pads.filterMap
    (fun pad => (spec.lookup pad.name).map (fun s => pinDefinition s pad))

/-- An assembled output component. -/
structure Component where
  ref : String
  description : String
  highlight : Bool
  groups : List String
  pins : List Pin

/-! ## Python values for the `groups` field of the annotation document -/

/-- A JSON-like Python value as it appears in the `groups` field of the
annotation document: `None`, a number, a string, a list, or an
insertion-ordered dictionary (association list of key/value pairs). -/
inductive PyVal where
  | none
  | int (n : Int)
  | str (s : String)
  | list (xs : List PyVal)
  | dict (entries : List (PyVal × PyVal))

mutual

/-- Structural equality of Python values (`==` on keys of a dict). -/
def pyBeq : PyVal → PyVal → Bool
  | PyVal.none, PyVal.none => true
  | PyVal.int a, PyVal.int b => a == b
  | PyVal.str a, PyVal.str b => a == b
  | PyVal.list a, PyVal.list b => pyBeqList a b
  | PyVal.dict a, PyVal.dict b => pyBeqEntries a b
  | _, _ => false

/-- Elementwise equality of Python lists. -/
def pyBeqList : List PyVal → List PyVal → Bool
  | [], [] => true
  | a :: as_, b :: bs => pyBeq a b && pyBeqList as_ bs
  | _, _ => false

/-- Pairwise equality of dictionary entry lists. -/
def pyBeqEntries : List (PyVal × PyVal) → List (PyVal × PyVal) → Bool
  | [], [] => true
  | a :: as_, b :: bs => (pyBeq a.1 b.1 && pyBeq a.2 b.2) && pyBeqEntries as_ bs
  | _, _ => false

end

/-- `d[k] = v` on an insertion-ordered dictionary: overwrite in place when the
key is present, append otherwise. -/
def dictSet (d : List (PyVal × PyVal)) (k v : PyVal) : List (PyVal × PyVal) :=
  if d.any (fun e => pyBeq e.1 k) then
    d.map (fun e => if pyBeq e.1 k then (k, v) else e)
  else
    d ++ [(k, v)]

/-- Faults of the pipeline.  `missingComponent` models the null-object fault
when `board.FindModule(ref)` returns `None` and `footprint.Pads()` is then
called on it inside `pinsDefinition`. -/
inductive PErr where
  | notADictionary (v : PyVal)
  | keyNotString (k : PyVal)
  | unsupportedImageType (ext : String)
  | rendererFailure (back : Bool)
  | missingComponent (ref : String)

/-- `componentsDefinition(spec, board)`: for each `(ref, s)` pair in document
order, look up the footprint and append the assembled component to `defs`; a
reference the board does not know faults (null-object `AttributeError` on
`footprint.Pads()`), aborting the loop. -/
def componentsDefinition : List (String × ComponentSpec) → Board →
    Except PErr (List Component)
  | [], _ => Except.ok []
  | (ref, s) :: rest, board =>
    match board.FindModule ref with
    | some footprint =>
        Except.map
          (fun ds =>
            { ref := ref
              description := s.description
              highlight := s.highlight
              groups := s.groups
              pins := pinsDefinition s.pins footprint } :: ds)
          (componentsDefinition rest board)
    | none => Except.error (PErr.missingComponent ref)

/-! ## Group taxonomy resolver (`collectGroups`, `validateGroupStructure`,
`groupStructure`) -/

/-- Python `<` on characters: code-point order. -/
def charLtb (a b : Char) : Bool := a.toNat < b.toNat

/-- Python `<=` on strings: lexicographic code-point order. -/
def strLeb : List Char → List Char → Bool
  | [], _ => true
  | _ :: _, [] => false
  | a :: as_, b :: bs =>
    if charLtb a b then true else if charLtb b a then false else strLeb as_ bs

/-- Comparison used by `groups.sort()` on a list of strings. -/
def pyStrLe (a b : String) : Bool := strLeb a.data b.data

/-- Insert into a sorted list of strings, keeping order. -/
def insertSorted (x : String) : List String → List String
  | [] => [x]
  | y :: ys => if pyStrLe x y then x :: y :: ys else y :: insertSorted x ys

/-- `groups.sort()`: sort strings ascending by Python's code-point order. -/
def sortStrings (xs : List String) : List String := xs.foldr insertSorted []

/-- Add an element to the model of a Python `set` (kept as its list of
distinct members in first-insertion order; the set's iteration order is
irrelevant here because the caller sorts it). -/
def addUnique (acc : List String) (x : String) : List String :=
  if acc.contains x then acc else acc ++ [x]

/-- The distinct members of a collected occurrence list. -/
def dedupFirst (xs : List String) : List String := xs.foldl addUnique []

/-- `collectGroups(components)`: running translation of

```
groups = set()
for c in components.values():
    groups.update(*(c.get("groups", [])))
    for p in c["pins"].values():
        groups.update(p.get("groups", []))
groups = list(groups); groups.sort()
return { g: [] for g in groups }
```

`set.update(*iterables)` adds the elements of each argument; since each
element of `c["groups"]` is a *string*, the splat passes each group name as
its own iterable and its *characters* are added.  `p["groups"]` is passed as
one iterable, so pin group names are added whole.  The set is modelled as the
collected occurrence list deduplicated; `sort()` is lexicographic on
strings. -/
def collectGroups (components : List (String × ComponentSpec)) : PyVal :=
  let collected : List String :=
    components.flatMap (fun rc =>
      rc.2.groups.flatMap (fun g => g.data.map (fun ch => String.mk [ch]))
        ++ rc.2.pins.flatMap (fun rp => rp.2.groups))
  let sorted := sortStrings (dedupFirst collected)
  PyVal.dict (sorted.map (fun g => (PyVal.str g, PyVal.list [])))

/-- `{ v: {} for v in value }`: dict comprehension over a list; a repeated
element overwrites (same value `{}`), keeping its first position. -/
def dictFromList (xs : List PyVal) : List (PyVal × PyVal) :=
  xs.foldl (fun acc v => dictSet acc v (PyVal.dict [])) []

mutual

/-- `validateGroupStructure(struct)`: raises when `struct` is not a dict or a
key is not a string; a `None` value becomes `{}`, a dict value is validated
recursively, a list value becomes `{ v: {} for v in value }`, and an entry
with a value of any other type is skipped (no `else` branch: the key is
silently dropped). -/
def validateGroupStructure : PyVal → Except PErr PyVal
  | PyVal.dict entries => Except.map PyVal.dict (validateEntries entries)
  | struct => Except.error (PErr.notADictionary struct)

/-- The `for key, value in struct.items()` loop of `validateGroupStructure`,
building `newStruct` entry by entry in iteration order. -/
def validateEntries : List (PyVal × PyVal) → Except PErr (List (PyVal × PyVal))
  | [] => Except.ok []
  | (key, value) :: rest =>
    match key with
    | PyVal.str s =>
      match value with
      | PyVal.none =>
          Except.map (fun r => (PyVal.str s, PyVal.dict []) :: r)
            (validateEntries rest)
      | PyVal.dict d =>
          match validateGroupStructure (PyVal.dict d) with
          | Except.ok v =>
              Except.map (fun r => (PyVal.str s, v) :: r) (validateEntries rest)
          | Except.error e => Except.error e
      | PyVal.list xs =>
          Except.map (fun r => (PyVal.str s, PyVal.dict (dictFromList xs)) :: r)
            (validateEntries rest)
      | _ => validateEntries rest
    | k => Except.error (PErr.keyNotString k)

end

/-- `groupStructure(structure, components)`: auto-collect when the annotation
document supplies no `groups` structure, validate/canonicalize otherwise. -/
def groupStructure (struct : Option PyVal)
    (components : List (String × ComponentSpec)) : Except PErr PyVal :=
  match struct with
  | Option.none => Except.ok (collectGroups components)
  | Option.some s => validateGroupStructure s

/-! ## Image generation and alignment (`svgToBitmap`, `generateImage`,
`generate`)

Filenames are modelled as `pathlib.Path` values: lists of path components.
`outputdir / "front.png"` is `outputdir ++ ["front.png"]`.  Side effects of
the pipeline (subprocess invocation, bitmap write, `spec.json` write) are
recorded in an event trace; a raised exception aborts the run with the trace
accumulated so far. -/

/-- The extension part of `os.path.splitext` restricted to one path component:
split at the last `.`; a basename whose characters before that dot are all
dots has no extension. -/
def splitAtLastDot : List Char → Option (List Char × List Char)
  | [] => Option.none
  | c :: rest =>
    match splitAtLastDot rest with
    | Option.some (r, e) => Option.some (c :: r, e)
    | Option.none =>
        if c = '.' then Option.some ([], c :: rest) else Option.none

/-- The extension of a basename per `os.path.splitext`. -/
def extOfBase (base : String) : String :=
  match splitAtLastDot base.data with
  | Option.none => ""
  | Option.some (root, e) =>
      if root.all (fun c => c = '.') then "" else String.mk e

/-- `os.path.splitext(p)[1]`: the extension of the path's last component. -/
def splitextExt (p : List String) : String := extOfBase (p.getLastD "")

/-- The bitmap encoder selected by `svgToBitmap`. -/
inductive ImgType where
  | png32
  | jpeg
deriving DecidableEq

/-- `ext.lower()` (extensions are ASCII, so ASCII case folding suffices). -/
def pyLower (s : String) : String := String.mk (s.data.map Char.toLower)

/-- The encoder-selection branch of `svgToBitmap`: `.png` → `png32`,
`.jpg`/`.jpeg` → `jpeg`, anything else raises
`RuntimeError(f"Unsupported output image type {ext}")`. -/
def chooseType (outfilename : List String) : Except PErr ImgType :=
  let ext := splitextExt outfilename
  if pyLower ext == ".png" then Except.ok ImgType.png32
  else if pyLower ext == ".jpg" || pyLower ext == ".jpeg" then Except.ok ImgType.jpeg
  else Except.error (PErr.unsupportedImageType ext)

/-- Observable side effects of one pipeline run. -/
inductive Event where
  | runRenderer (cmd : List String) (back : Bool)
  | readImage
  | writeBitmap (out : List String) (t : ImgType)
  | writeSpec
deriving DecidableEq

/-- `svgToBitmap(infilename, outfilename, dpi)`: read the vector image, select
the encoder from the output extension (raising on an unsupported one), encode
and write the bitmap. -/
def svgToBitmap (infilename outfilename : List String) (dpi : ℚ) :
    List Event × Except PErr ImgType :=
  match chooseType outfilename with
  | Except.ok t =>
      ([Event.readImage, Event.writeBitmap outfilename t], Except.ok t)
  | Except.error e => ([Event.readImage], Except.error e)

/-- Optional arguments forwarded verbatim to the external renderer. -/
structure PcbdrawArgs where
  style : Option String
  libs : Option String
  remap : Option String
  filter : Option String

/-- The `pcbdraw` command line assembled by `generateImage`. -/
def pcbdrawCommand (pcbdrawArgs : PcbdrawArgs) (back : Bool)
    (boardfilename svgfilename : String) : List String :=
  let command := ["pcbdraw", "--shrink", "0"]
  let command := if back then command ++ ["--back"] else command
  let command :=
    match pcbdrawArgs.style with
    | Option.some s => command ++ ["--style", s]
    | Option.none => command
  let command :=
    match pcbdrawArgs.libs with
    | Option.some s => command ++ ["--libs", s]
    | Option.none => command
  let command :=
    match pcbdrawArgs.remap with
    | Option.some s => command ++ ["--remap", s]
    | Option.none => command
  let command :=
    match pcbdrawArgs.filter with
    | Option.some s => command ++ ["--filter", s]
    | Option.none => command
  command ++ [boardfilename, svgfilename]

/-- The four numbers of the vector image's declared `viewBox` attribute, in
decimil-derived units. -/
structure ViewBox where
  tlx : ℚ
  tly : ℚ
  w : ℚ
  h : ℚ

/-- The external renderer collaborator, per side (`back` flag): whether the
subprocess exits zero, and the `viewBox` of the vector image it leaves
behind. -/
structure Renderer where
  exitOk : Bool → Bool
  viewBox : Bool → ViewBox

/-- `generateImage(boardfilename, outputfilename, dpi, pcbdrawArgs, back)`:
invoke `pcbdraw` (`subprocess.run(command, check=True)` raises on a non-zero
exit), convert the vector image to a bitmap, then parse the vector image's
`viewBox` and return the active area converted decimil→native→mm. -/
def generateImage (renderer : Renderer) (boardfilename : String)
    (outputfilename : List String) (dpi : ℚ) (pcbdrawArgs : PcbdrawArgs)
    (back : Bool) : List Event × Except PErr BoundingBox :=
  let command := pcbdrawCommand pcbdrawArgs back boardfilename "img.svg"
  let ev := [Event.runRenderer command back]
  if renderer.exitOk back then
    match svgToBitmap ["img.svg"] outputfilename dpi with
    | (ev2, Except.ok _) =>
        let vb := renderer.viewBox back
        (ev ++ ev2,
         Except.ok
           { tl := (ki2mm (dmil2ki vb.tlx), ki2mm (dmil2ki vb.tly))
             br := (ki2mm (dmil2ki (vb.tlx + vb.w)),
                    ki2mm (dmil2ki (vb.tly + vb.h))) })
    | (ev2, Except.error e) => (ev ++ ev2, Except.error e)
  else
    (ev, Except.error (PErr.rendererFailure back))

/-- The whole annotation document. -/
structure SpecInput where
  name : String
  description : String
  components : List (String × ComponentSpec)
  groups : Option PyVal

/-- One rendered side of the output document. -/
structure RenderedSide where
  file : String
  area : BoundingBox

/-- The output document written to `spec.json`. -/
structure OutputDoc where
  name : String
  description : String
  front : RenderedSide
  back : RenderedSide
  components : List Component
  groups : PyVal

/-- `generate(board, specification, outputdir, dpi, pcbdrawArgs)`: render and
convert both sides, assemble components and groups, then write `spec.json`.
Each stage's exception aborts the run with the events accumulated so far. -/
def generate (renderer : Renderer) (board : Board) (specification : SpecInput)
    (outputdir : List String) (dpi : ℚ) (pcbdrawArgs : PcbdrawArgs) :
    List Event × Except PErr OutputDoc :=
  match generateImage renderer board.fileName (outputdir ++ ["front.png"]) dpi
      pcbdrawArgs false with
  | (ev1, Except.error e) => (ev1, Except.error e)
  | (ev1, Except.ok fSource) =>
    match generateImage renderer board.fileName (outputdir ++ ["back.png"]) dpi
        pcbdrawArgs true with
    | (ev2, Except.error e) => (ev1 ++ ev2, Except.error e)
    | (ev2, Except.ok bSource) =>
      match componentsDefinition specification.components board with
      | Except.error e => (ev1 ++ ev2, Except.error e)
      | Except.ok comps =>
        match groupStructure specification.groups specification.components with
        | Except.error e => (ev1 ++ ev2, Except.error e)
        | Except.ok gs =>
            (ev1 ++ ev2 ++ [Event.writeSpec],
             Except.ok
               { name := specification.name
                 description := specification.description
                 front := { file := "front.png", area := fSource }
                 back := { file := "back.png", area := bSource }
                 components := comps
                 groups := gs })

/-! ## Observables used by the theorems -/

/-- Whether an event writes a bitmap file. -/
def isBitmapWrite : Event → Bool
  | Event.writeBitmap _ _ => true
  | _ => false

/-- Whether an event is a bitmap write with an encoder other than 32-bit
PNG. -/
def nonPngBitmapWrite : Event → Bool
  | Event.writeBitmap _ t => !(t == ImgType.png32)
  | _ => false

/-- Whether a fault is the unsupported-image-format one. -/
def isUnsupportedErr : PErr → Bool
  | PErr.unsupportedImageType _ => true
  | _ => false

/-- Whether an outcome is the unsupported-image-format fault. -/
def isUnsupportedFault {α : Type} : Except PErr α → Bool
  | Except.error e => isUnsupportedErr e
  | Except.ok _ => false

/-- A fixed optional-argument record (all four renderer options absent). -/
def examplePcbdrawArgs : PcbdrawArgs :=
  { style := Option.none, libs := Option.none
    remap := Option.none, filter := Option.none }

/-- A renderer collaborator that always exits zero and declares the viewBox
`"0 0 10000 5000"` on both sides. -/
def exampleRenderer : Renderer :=
  { exitOk := fun _ => true, viewBox := fun _ => ⟨0, 0, 10000, 5000⟩ }

/-- A pad fixture positioned at the native-unit point `(px, py)`. -/
def examplePad (n : String) (px py : ℚ) : Pad :=
  { name := n, posx := px, posy := py, bbox := ⟨0, 0, 0, 0⟩
    onFront := true, onBack := false, outlineFn := fun _ => [] }

/-- A footprint with pads `1`, `2`, `3`, `4` in native enumeration order. -/
def exampleFootprint : Footprint :=
  { pads := [examplePad "1" 1 0, examplePad "2" 2 0,
             examplePad "3" 3 0, examplePad "4" 4 0] }

/-- A pins mapping naming pads `1` and `3` only. -/
def examplePins : List (String × PinSpec) :=
  [("1", { name := "P1" }), ("3", { name := "P3" })]

/-- The canonical strings-keyed nested mapping used as a concrete witness. -/
def exampleCanonical : PyVal :=
  PyVal.dict
    [(PyVal.str "power", PyVal.dict [(PyVal.str "3v3", PyVal.dict [])]),
     (PyVal.str "gpio", PyVal.dict [])]

mutual

/-- Canonical form of a group structure: a mapping whose keys are strings and
whose values are recursively canonical mappings. -/
def isCanonical : PyVal → Bool
  | PyVal.dict entries => isCanonicalEntries entries
  | _ => false

/-- Canonical form of a list of dictionary entries. -/
def isCanonicalEntries : List (PyVal × PyVal) → Bool
  | [] => true
  | (k, v) :: rest =>
    (match k with
     | PyVal.str _ => true
     | _ => false)
      && isCanonical v && isCanonicalEntries rest

end

end Pinion

/-! ## Theorems -/

namespace Pinion

/-- Helper: the composed decimil→native→mm factor is exactly `0.00254`. -/
theorem ki2mm_dmil2ki (v : ℚ) : ki2mm (dmil2ki v) = v * (254 / 100000) := by
  unfold ki2mm dmil2ki
  ring

/-- C7: for every value `v`, composing decimil-to-native conversion
(`dmil2ki`) with native-to-millimetres conversion (`ki2mm`) yields exactly
`v * 0.00254` (so in particular within any relative tolerance); both
conversions are pure functions of their argument. -/
theorem decimil_to_mm_composition (v : ℚ) :
    ki2mm (dmil2ki v) = v * (254 / 100000) := by
  exact ki2mm_dmil2ki v

/-- C1: evaluating `collectGroups` on a document with one component whose own
`groups` is `["pwr"]` and whose single pin has `groups = ["gpio"]`.  The
splat in `groups.update(*(c.get("groups", [])))` passes each component-level
group *string* as its own iterable, so its characters `"p"`, `"w"`, `"r"`
enter the set instead of the name `"pwr"`, while the pin-level name `"gpio"`
enters whole; every key maps to an empty *list*, not an empty mapping.  The
union of the `groups` entries would be `{"gpio", "pwr"}`. -/
theorem collectGroups_explodes_component_groups :
    collectGroups
        [("R1",
          { description := ""
            groups := ["pwr"]
            pins := [("1", { name := "A", groups := ["gpio"] })] })]
      = PyVal.dict
          [(PyVal.str "gpio", PyVal.list []), (PyVal.str "p", PyVal.list []),
           (PyVal.str "r", PyVal.list []), (PyVal.str "w", PyVal.list [])] := by
  rfl

/-- C2: validating `{"a": 5}` does not raise: the loop body of
`validateGroupStructure` has no `else` branch, so an entry whose value is
neither `None` nor a dict nor a list is silently dropped and validation
returns `{}`. -/
theorem validateGroupStructure_accepts_int_value :
    validateGroupStructure (PyVal.dict [(PyVal.str "a", PyVal.int 5)])
      = Except.ok (PyVal.dict []) := by
  rfl

/-- C3 counterexample: on the rectangle with origin `(0, 0)` and width and
height `-1`, `serializeEdaRect` returns a box whose bottom-right corner lies
strictly left of and above the top-left corner, refuting
`topLeft.x ≤ bottomRight.x ∧ topLeft.y ≤ bottomRight.y` for rectangles with
negative width or height. -/
theorem serializeEdaRect_negative_not_normalized :
    (serializeEdaRect ⟨0, 0, -1, -1⟩).br.1 < (serializeEdaRect ⟨0, 0, -1, -1⟩).tl.1
      ∧ (serializeEdaRect ⟨0, 0, -1, -1⟩).br.2
          < (serializeEdaRect ⟨0, 0, -1, -1⟩).tl.2 := by
  constructor <;> norm_num [serializeEdaRect, ki2mm]

/-- C3 amended: for every native-unit rectangle whose width and height are
nonnegative, the bounding box produced by `serializeEdaRect` satisfies
`topLeft.x ≤ bottomRight.x` and `topLeft.y ≤ bottomRight.y`; the corners are
not reordered, so the property does not extend to negative width or
height. -/
theorem serializeEdaRect_ordered_of_nonneg (rect : EdaRect)
    (hw : 0 ≤ rect.w) (hh : 0 ≤ rect.h) :
    (serializeEdaRect rect).tl.1 ≤ (serializeEdaRect rect).br.1
      ∧ (serializeEdaRect rect).tl.2 ≤ (serializeEdaRect rect).br.2 := by
  constructor <;>
    · simp only [serializeEdaRect, ki2mm]
      apply div_le_div_of_nonneg_right ?_ (by norm_num)
      linarith

/-- Witness for the amended C3 at the rectangle `(1, 1, 2, 3)`. -/
theorem serializeEdaRect_ordered_of_nonneg_witness :
    (0 : ℚ) ≤ 2 ∧ (0 : ℚ) ≤ 3
      ∧ ((serializeEdaRect ⟨1, 1, 2, 3⟩).tl.1 ≤ (serializeEdaRect ⟨1, 1, 2, 3⟩).br.1
          ∧ (serializeEdaRect ⟨1, 1, 2, 3⟩).tl.2
              ≤ (serializeEdaRect ⟨1, 1, 2, 3⟩).br.2) :=
  ⟨by norm_num, by norm_num,
   serializeEdaRect_ordered_of_nonneg ⟨1, 1, 2, 3⟩ (by norm_num) (by norm_num)⟩

/-- Helper for C5: the assembled pins are exactly the pads whose name is a
key of the pins mapping, in pad order, observed through their positions. -/
theorem pinsDefinition_pos_eq (spec : List (String × PinSpec)) (pads : List Pad) :
    (pinsDefinition spec ⟨pads⟩).map Pin.pos
      = (pads.filter (fun pad => (spec.lookup pad.name).isSome)).map
          (fun pad => (ki2mm pad.posx, ki2mm pad.posy)) := by
  induction pads with
  | nil => rfl
  | cons pad rest ih =>
    cases h : spec.lookup pad.name with
    | none =>
        simpa [pinsDefinition, List.filterMap_cons, List.filter_cons, h] using ih
    | some s =>
        simpa [pinsDefinition, List.filterMap_cons, List.filter_cons, h,
               pinDefinition] using ih

/-- C5: for every pins mapping and footprint, `pinsDefinition` yields exactly
one pin per footprint pad whose name is a key of the mapping, in the
footprint's native pad enumeration order (read off through the pads'
positions), and pads not named are omitted without error; concretely, the
mapping naming `"1"` and `"3"` against the footprint with pads `1, 2, 3, 4`
yields exactly the two pins built from pads `1` and `3`, in that order. -/
theorem pinsDefinition_named_pads_in_pad_order
    (spec : List (String × PinSpec)) (fp : Footprint) :
    (pinsDefinition spec fp).map Pin.pos
        = (fp.pads.filter (fun pad => (spec.lookup pad.name).isSome)).map
            (fun pad => (ki2mm pad.posx, ki2mm pad.posy))
      ∧ (pinsDefinition examplePins exampleFootprint).map Pin.name = ["P1", "P3"]
      ∧ (pinsDefinition examplePins exampleFootprint).map Pin.pos
          = [(ki2mm 1, ki2mm 0), (ki2mm 3, ki2mm 0)] := by
  refine ⟨?_, by rfl, by rfl⟩
  cases fp with
  | mk pads => exact pinsDefinition_pos_eq spec pads

mutual

/-- Helper for C6: a canonical structure validates to itself. -/
theorem canonical_validate_aux :
    ∀ v : PyVal, isCanonical v = true → validateGroupStructure v = Except.ok v
  | PyVal.dict entries, h => by
      have he : validateEntries entries = Except.ok entries :=
        canonical_validateEntries_aux entries (by simpa [isCanonical] using h)
      simp [validateGroupStructure, he, Except.map]
  | PyVal.none, h => by simp [isCanonical] at h
  | PyVal.int n, h => by simp [isCanonical] at h
  | PyVal.str s, h => by simp [isCanonical] at h
  | PyVal.list xs, h => by simp [isCanonical] at h

/-- Helper for C6: canonical entry lists validate to themselves. -/
theorem canonical_validateEntries_aux :
    ∀ es : List (PyVal × PyVal),
      isCanonicalEntries es = true → validateEntries es = Except.ok es
  | [], _ => by simp [validateEntries]
  | (PyVal.str s, PyVal.dict d) :: rest, h => by
      simp only [isCanonicalEntries, Bool.and_eq_true] at h
      have hv : validateGroupStructure (PyVal.dict d) = Except.ok (PyVal.dict d) :=
        canonical_validate_aux (PyVal.dict d) h.1.2
      have hr : validateEntries rest = Except.ok rest :=
        canonical_validateEntries_aux rest h.2
      simp [validateEntries, hv, hr, Except.map]
  | (PyVal.str s, PyVal.none) :: rest, h => by
      simp [isCanonicalEntries, isCanonical] at h
  | (PyVal.str s, PyVal.int n) :: rest, h => by
      simp [isCanonicalEntries, isCanonical] at h
  | (PyVal.str s, PyVal.str t) :: rest, h => by
      simp [isCanonicalEntries, isCanonical] at h
  | (PyVal.str s, PyVal.list xs) :: rest, h => by
      simp [isCanonicalEntries, isCanonical] at h
  | (PyVal.none, v) :: rest, h => by
      simp [isCanonicalEntries] at h
  | (PyVal.int n, v) :: rest, h => by
      simp [isCanonicalEntries] at h
  | (PyVal.list xs, v) :: rest, h => by
      simp [isCanonicalEntries] at h
  | (PyVal.dict es2, v) :: rest, h => by
      simp [isCanonicalEntries] at h

end

/-- C6: group-structure validation is idempotent: a structure already in
canonical form (nested string-keyed mappings) is returned unchanged by
`validateGroupStructure`. -/
theorem validateGroupStructure_idempotent (v : PyVal)
    (h : isCanonical v = true) : validateGroupStructure v = Except.ok v :=
  canonical_validate_aux v h

/-- Witness for C6 at the canonical structure
`{"power": {"3v3": {}}, "gpio": {}}`. -/
theorem validateGroupStructure_idempotent_witness :
    isCanonical exampleCanonical = true
      ∧ validateGroupStructure exampleCanonical = Except.ok exampleCanonical :=
  ⟨rfl, validateGroupStructure_idempotent exampleCanonical rfl⟩

/-- Helper: the extension of a path obtained by joining a directory with a
final component is the extension of that component. -/
theorem splitextExt_append (dir : List String) (base : String) :
    splitextExt (dir ++ [base]) = extOfBase base := by
  unfold splitextExt
  rw [List.getLastD_concat]

/-- Helper: extension selection only looks at the final path component. -/
theorem chooseType_append (dir : List String) (base : String) :
    chooseType (dir ++ [base]) = chooseType [base] := by
  unfold chooseType
  rw [splitextExt_append]
  rfl

/-- Helper: `Except.map` keeps the error, so it cannot introduce or remove
the unsupported-format fault. -/
theorem isUnsupportedFault_map {α β : Type} (f : α → β) (r : Except PErr α) :
    isUnsupportedFault (Except.map f r) = isUnsupportedFault r := by
  cases r with
  | ok a => rfl
  | error e => rfl

/-- Helper: the fault test on an errored outcome only looks at the fault. -/
theorem isUnsupportedFault_error {α : Type} (e : PErr) :
    isUnsupportedFault (Except.error e : Except PErr α) = isUnsupportedErr e :=
  rfl

/-- C8: when the renderer exits zero and the output extension is supported,
`generateImage` returns the active-area bounding box obtained by converting
all four `viewBox` numbers `x y w h` through decimil→native→mm:
`tl = (x·0.00254, y·0.00254)`, `br = ((x+w)·0.00254, (y+h)·0.00254)`. -/
theorem generateImage_area_from_viewbox (renderer : Renderer)
    (boardfilename : String) (out : List String) (dpi : ℚ)
    (args : PcbdrawArgs) (back : Bool) (t : ImgType)
    (hok : renderer.exitOk back = true)
    (hext : chooseType out = Except.ok t) :
    (generateImage renderer boardfilename out dpi args back).2
      = Except.ok
          { tl := ((renderer.viewBox back).tlx * (254 / 100000),
                   (renderer.viewBox back).tly * (254 / 100000))
            br := (((renderer.viewBox back).tlx + (renderer.viewBox back).w)
                     * (254 / 100000),
                   ((renderer.viewBox back).tly + (renderer.viewBox back).h)
                     * (254 / 100000)) } := by
  unfold generateImage svgToBitmap
  rw [hok, hext]
  simp [ki2mm_dmil2ki]

/-- Witness for C8: a renderer declaring viewBox `"0 0 10000 5000"` yields
`tl = (0, 0)` and `br = (25.4, 12.7)` millimetres. -/
theorem generateImage_area_from_viewbox_witness :
    exampleRenderer.exitOk false = true
      ∧ chooseType ["front.png"] = Except.ok ImgType.png32
      ∧ (generateImage exampleRenderer "board.kicad_pcb" ["front.png"] 300
            examplePcbdrawArgs false).2
          = Except.ok { tl := (0, 0), br := (254 / 10, 127 / 10) } := by
  refine ⟨rfl, rfl, ?_⟩
  rw [generateImage_area_from_viewbox exampleRenderer "board.kicad_pcb"
      ["front.png"] 300 examplePcbdrawArgs false ImgType.png32 rfl rfl]
  norm_num [exampleRenderer]

/-- C4 counterexample: with output file `out.bmp` and a renderer that exits
zero, the run does fault with the unsupported-image-format error, but only
*after* the external renderer has been invoked for that side: the renderer
invocation is in the event trace.  This refutes "aborts before the external
renderer is invoked for that side". -/
theorem bmp_renderer_invoked_before_fault :
    Event.runRenderer
        (pcbdrawCommand examplePcbdrawArgs false "board.kicad_pcb" "img.svg")
        false
      ∈ (generateImage exampleRenderer "board.kicad_pcb" ["out.bmp"] 300
          examplePcbdrawArgs false).1
      ∧ (generateImage exampleRenderer "board.kicad_pcb" ["out.bmp"] 300
          examplePcbdrawArgs false).2
        = Except.error (PErr.unsupportedImageType ".bmp") := by
  constructor
  · decide
  · rfl

/-- C4 amended: when the configured output image extension is not `.png`,
`.jpg` or `.jpeg`, the side's generation aborts with the
unsupported-image-format fault *after* the external renderer has been invoked
for that side (the vector image is produced first) but before any bitmap file
is written for that side. -/
theorem unsupported_extension_faults_before_bitmap_write (renderer : Renderer)
    (boardfilename : String) (out : List String) (dpi : ℚ)
    (args : PcbdrawArgs) (back : Bool) (ext : String)
    (hok : renderer.exitOk back = true)
    (hext : chooseType out = Except.error (PErr.unsupportedImageType ext)) :
    (generateImage renderer boardfilename out dpi args back).2
        = Except.error (PErr.unsupportedImageType ext)
      ∧ ((generateImage renderer boardfilename out dpi args back).1.all
          (fun e => !(isBitmapWrite e))) = true
      ∧ ((generateImage renderer boardfilename out dpi args back).1.contains
          (Event.runRenderer (pcbdrawCommand args back boardfilename "img.svg")
            back)) = true := by
  unfold generateImage svgToBitmap
  rw [hok, hext]
  simp [isBitmapWrite]

/-- Witness for the amended C4 at the `.bmp` output file. -/
theorem unsupported_extension_faults_witness :
    exampleRenderer.exitOk true = true
      ∧ chooseType ["out.bmp"] = Except.error (PErr.unsupportedImageType ".bmp")
      ∧ ((generateImage exampleRenderer "board.kicad_pcb" ["out.bmp"] 300
            examplePcbdrawArgs true).2
          = Except.error (PErr.unsupportedImageType ".bmp")
        ∧ ((generateImage exampleRenderer "board.kicad_pcb" ["out.bmp"] 300
            examplePcbdrawArgs true).1.all (fun e => !(isBitmapWrite e))) = true
        ∧ ((generateImage exampleRenderer "board.kicad_pcb" ["out.bmp"] 300
            examplePcbdrawArgs true).1.contains
            (Event.runRenderer
              (pcbdrawCommand examplePcbdrawArgs true "board.kicad_pcb" "img.svg")
              true)) = true) :=
  ⟨rfl, rfl,
   unsupported_extension_faults_before_bitmap_write exampleRenderer
     "board.kicad_pcb" ["out.bmp"] 300 examplePcbdrawArgs true ".bmp" rfl rfl⟩

/-- Helper: `generateImage` never writes the output document. -/
theorem writeSpec_not_mem_generateImage (renderer : Renderer)
    (boardfilename : String) (out : List String) (dpi : ℚ)
    (args : PcbdrawArgs) (back : Bool) :
    Event.writeSpec ∉ (generateImage renderer boardfilename out dpi args back).1 := by
  unfold generateImage svgToBitmap
  cases hok : renderer.exitOk back with
  | false => simp [hok]
  | true => cases hct : chooseType out <;> simp [hok, hct]

/-- C9: in every run of `generate`, the output document is written exactly
when image generation for both sides, component assembly and group resolution
have all completed successfully; a fatal fault at any stage leaves no
`spec.json` write in the trace. -/
theorem specJson_only_written_on_success (renderer : Renderer) (board : Board)
    (specification : SpecInput) (outputdir : List String) (dpi : ℚ)
    (args : PcbdrawArgs) :
    Event.writeSpec ∈ (generate renderer board specification outputdir dpi args).1
      ↔ (generate renderer board specification outputdir dpi args).2.isOk
          = true := by
  have hn1 := writeSpec_not_mem_generateImage renderer board.fileName
    (outputdir ++ ["front.png"]) dpi args false
  have hn2 := writeSpec_not_mem_generateImage renderer board.fileName
    (outputdir ++ ["back.png"]) dpi args true
  unfold generate
  rcases h1 : generateImage renderer board.fileName (outputdir ++ ["front.png"])
      dpi args false with ⟨ev1, r1⟩
  rw [h1] at hn1
  rcases h2 : generateImage renderer board.fileName (outputdir ++ ["back.png"])
      dpi args true with ⟨ev2, r2⟩
  rw [h2] at hn2
  cases r1 with
  | error e => simp_all [Except.isOk, Except.toBool]
  | ok fSource =>
    cases r2 with
    | error e => simp_all [Except.isOk, Except.toBool]
    | ok bSource =>
      cases hc : componentsDefinition specification.components board with
      | error e => simp_all [Except.isOk, Except.toBool]
      | ok comps =>
        cases hg : groupStructure specification.groups specification.components with
        | error e => simp_all [Except.isOk, Except.toBool]
        | ok gs => simp_all [Except.isOk, Except.toBool]

mutual

/-- Helper for C10: group-structure validation only raises the
not-a-dictionary and key-not-a-string faults, never the image-format one. -/
theorem validate_not_unsupported :
    ∀ v : PyVal, isUnsupportedFault (validateGroupStructure v) = false
  | PyVal.dict entries => by
      have h := validateEntries_not_unsupported entries
      cases he : validateEntries entries with
      | ok es => simp [validateGroupStructure, he, Except.map, isUnsupportedFault]
      | error e =>
          rw [he] at h
          simpa [validateGroupStructure, he, Except.map, isUnsupportedFault]
            using h
  | PyVal.none => by simp [validateGroupStructure, isUnsupportedFault, isUnsupportedErr]
  | PyVal.int n => by simp [validateGroupStructure, isUnsupportedFault, isUnsupportedErr]
  | PyVal.str s => by simp [validateGroupStructure, isUnsupportedFault, isUnsupportedErr]
  | PyVal.list xs => by simp [validateGroupStructure, isUnsupportedFault, isUnsupportedErr]

/-- Helper for C10: entry validation never raises the image-format fault. -/
theorem validateEntries_not_unsupported :
    ∀ es : List (PyVal × PyVal),
      isUnsupportedFault (validateEntries es) = false
  | [] => by simp [validateEntries, isUnsupportedFault]
  | (PyVal.str s, PyVal.none) :: rest => by
      have h := validateEntries_not_unsupported rest
      simpa [validateEntries, isUnsupportedFault_map] using h
  | (PyVal.str s, PyVal.dict d) :: rest => by
      have h1 := validate_not_unsupported (PyVal.dict d)
      have h2 := validateEntries_not_unsupported rest
      cases hv : validateGroupStructure (PyVal.dict d) with
      | ok w => simpa [validateEntries, hv, isUnsupportedFault_map] using h2
      | error e =>
          rw [hv] at h1
          simpa [validateEntries, hv, isUnsupportedFault] using h1
  | (PyVal.str s, PyVal.list xs) :: rest => by
      have h := validateEntries_not_unsupported rest
      simpa [validateEntries, isUnsupportedFault_map] using h
  | (PyVal.str s, PyVal.int n) :: rest => by
      have h := validateEntries_not_unsupported rest
      simpa [validateEntries] using h
  | (PyVal.str s, PyVal.str t) :: rest => by
      have h := validateEntries_not_unsupported rest
      simpa [validateEntries] using h
  | (PyVal.none, v) :: rest => by
      simp [validateEntries, isUnsupportedFault, isUnsupportedErr]
  | (PyVal.int n, v) :: rest => by
      simp [validateEntries, isUnsupportedFault, isUnsupportedErr]
  | (PyVal.list xs, v) :: rest => by
      simp [validateEntries, isUnsupportedFault, isUnsupportedErr]
  | (PyVal.dict es2, v) :: rest => by
      simp [validateEntries, isUnsupportedFault, isUnsupportedErr]

end

/-- Helper for C10: group resolution never raises the image-format fault. -/
theorem groupStructure_not_unsupported (struct : Option PyVal)
    (components : List (String × ComponentSpec)) :
    isUnsupportedFault (groupStructure struct components) = false := by
  cases struct with
  | none => rfl
  | some s => exact validate_not_unsupported s

/-- Helper for C10: component assembly never raises the image-format fault. -/
theorem componentsDefinition_not_unsupported
    (spec : List (String × ComponentSpec)) (board : Board) :
    isUnsupportedFault (componentsDefinition spec board) = false := by
  induction spec with
  | nil => rfl
  | cons rs rest ih =>
    obtain ⟨ref, s⟩ := rs
    cases hm : board.FindModule ref with
    | some footprint => simpa [componentsDefinition, hm, isUnsupportedFault_map] using ih
    | none => simp [componentsDefinition, hm, isUnsupportedFault, isUnsupportedErr]

/-- Helper for C10: with a `.png` output file, every bitmap write in the
side's trace uses the `png32` encoder and the side never raises the
image-format fault. -/
theorem generateImage_png_trace (renderer : Renderer) (boardfilename : String)
    (out : List String) (dpi : ℚ) (args : PcbdrawArgs) (back : Bool)
    (hext : chooseType out = Except.ok ImgType.png32) :
    ((generateImage renderer boardfilename out dpi args back).1.all
        (fun e => !(nonPngBitmapWrite e))) = true
      ∧ isUnsupportedFault
          (generateImage renderer boardfilename out dpi args back).2 = false := by
  unfold generateImage svgToBitmap
  cases hok : renderer.exitOk back with
  | false => simp [hok, nonPngBitmapWrite, isUnsupportedFault, isUnsupportedErr]
  | true => simp [hok, hext, nonPngBitmapWrite, isUnsupportedFault, isUnsupportedErr]

/-- C10: `generate` fixes the bitmap output filenames to `front.png` and
`back.png`, so inside `svgToBitmap` the extension is always `.png`: every
bitmap written in the trace uses the 32-bit PNG encoder (the JPEG branch is
never taken) and the run never ends in the unsupported-image-format fault. -/
theorem generate_always_png (renderer : Renderer) (board : Board)
    (specification : SpecInput) (outputdir : List String) (dpi : ℚ)
    (args : PcbdrawArgs) :
    ((generate renderer board specification outputdir dpi args).1.all
        (fun e => !(nonPngBitmapWrite e))) = true
      ∧ isUnsupportedFault
          (generate renderer board specification outputdir dpi args).2
        = false := by
  have hf : chooseType (outputdir ++ ["front.png"]) = Except.ok ImgType.png32 := by
    rw [chooseType_append]
    rfl
  have hb : chooseType (outputdir ++ ["back.png"]) = Except.ok ImgType.png32 := by
    rw [chooseType_append]
    rfl
  have t1 := generateImage_png_trace renderer board.fileName
    (outputdir ++ ["front.png"]) dpi args false hf
  have t2 := generateImage_png_trace renderer board.fileName
    (outputdir ++ ["back.png"]) dpi args true hb
  have tc := componentsDefinition_not_unsupported specification.components board
  have tg := groupStructure_not_unsupported specification.groups
    specification.components
  unfold generate
  rcases h1 : generateImage renderer board.fileName (outputdir ++ ["front.png"])
      dpi args false with ⟨ev1, r1⟩
  rw [h1] at t1
  rcases h2 : generateImage renderer board.fileName (outputdir ++ ["back.png"])
      dpi args true with ⟨ev2, r2⟩
  rw [h2] at t2
  cases r1 with
  | error e => exact ⟨t1.1, t1.2⟩
  | ok fSource =>
    cases r2 with
    | error e =>
        refine ⟨?_, t2.2⟩
        rw [List.all_append, t1.1, t2.1]
        rfl
    | ok bSource =>
      cases hc : componentsDefinition specification.components board with
      | error e =>
          rw [hc] at tc
          refine ⟨?_, tc⟩
          rw [List.all_append, t1.1, t2.1]
          rfl
      | ok comps =>
        cases hg : groupStructure specification.groups
            specification.components with
        | error e =>
            rw [hg] at tg
            refine ⟨?_, tg⟩
            rw [List.all_append, t1.1, t2.1]
            rfl
        | ok gs =>
            refine ⟨?_, rfl⟩
            rw [List.all_append, List.all_append, t1.1, t2.1]
            rfl

end Pinion
